import Mathlib

/-!
Book Connect (`scripts.js`): search filter and "show more" pagination.

A shallow embedding of the state kept by `scripts.js` (the module variables
`page` and `matches`, and the parts of the document the script writes to) and
of the functions that update it: `displayBooksPerPage`, `updateShowMoreButton`,
`handleSearchFormSubmit`, `handleShowMoreButtonClick`, and the sequence of
top-level statements executed when the module is loaded.

JavaScript strings are represented by `String`, arrays by `List`, the numbers
`page` and `BOOKS_PER_PAGE` by `Nat`, and the differences
`matches.length - page * BOOKS_PER_PAGE` by `Int` (they can be negative).
-/

set_option autoImplicit false

namespace BookConnect

/-! ## Data imported from `data.js` -/

/-- A book record of the `books` array. -/
structure Book where
  id : String
  title : String
  author : String
  image : String
  description : String
  published : String
  genres : List String
deriving DecidableEq, Repr

/-- The `button.preview` element built for a book: its `data-preview`
attribute, the image source, the title and the text `authors[author]`
(`none` when the author table has no such key). -/
structure Preview where
  dataPreview : String
  image : String
  title : String
  author : Option String
deriving DecidableEq, Repr

/-- What `scripts.js` imports from `data.js` (`books`, `authors`,
`BOOKS_PER_PAGE`), together with the built-in `String.prototype.toLowerCase`,
which is left as a parameter. -/
structure Env where
  books : List Book
  authors : String → Option String
  BOOKS_PER_PAGE : Nat
  toLowerCase : String → String

/-- The values of the search form, `Object.fromEntries(formData)`. -/
structure Filters where
  title : String
  author : String
  genre : String
deriving DecidableEq, Repr

/-! ## Built-in string and array operations -/

/-- The characters removed by `String.prototype.trim`: ECMAScript `WhiteSpace`
(TAB, VT, FF, ZWNBSP and the space separators) and `LineTerminator`
(LF, CR, LS, PS). -/
def isTrimChar (c : Char) : Bool :=
  let n := c.toNat
  n == 0x09 || n == 0x0A || n == 0x0B || n == 0x0C || n == 0x0D || n == 0x20 ||
  n == 0xA0 || n == 0x1680 || (0x2000 ≤ n && n ≤ 0x200A) || n == 0x2028 ||
  n == 0x2029 || n == 0x202F || n == 0x205F || n == 0x3000 || n == 0xFEFF

/-- The built-in `String.prototype.trim`: strips leading and trailing white
space. -/
def trim (s : String) : String :=
  String.mk ((((s.data.dropWhile isTrimChar).reverse).dropWhile isTrimChar).reverse)

/-- Search of `search` in `hay` starting at each position in turn, as
`String.prototype.includes` does on the sequences of characters. -/
def includesChars (search : List Char) : List Char → Bool
  | [] => search.isPrefixOf []
  | c :: hay => search.isPrefixOf (c :: hay) || includesChars search hay

/-- The built-in `String.prototype.includes`. -/
def includes (s search : String) : Bool :=
  includesChars search.data s.data

/-- The built-in `Array.prototype.slice(start, end)` for non-negative integer
arguments: the elements with index in `[start, end)`, clipped at the length. -/
def slice {α : Type} (xs : List α) (start stop : Nat) : List α :=
  (xs.drop start).take (stop - start)

/-- A lower-casing of the ASCII letters; it agrees with the built-in
`toLowerCase` on ASCII strings and is used for concrete environments. -/
def asciiToLowerCase (s : String) : String :=
  String.mk (s.data.map Char.toLower)

/-- Cased letters among the ASCII characters and the Greek letters
U+0391..U+03C9 (U+03A2 is unassigned). -/
def isCasedLetter (c : Char) : Bool :=
  let n := c.toNat
  (0x41 ≤ n && n ≤ 0x5A) || (0x61 ≤ n && n ≤ 0x7A) ||
  (0x391 ≤ n && n ≤ 0x3A9 && n != 0x3A2) || (0x3B1 ≤ n && n ≤ 0x3C9)

/-- The case-ignorable ASCII characters: apostrophe, full stop, colon,
circumflex and grave accent. -/
def isCaseIgnorable (c : Char) : Bool :=
  let n := c.toNat
  n == 0x27 || n == 0x2E || n == 0x3A || n == 0x5E || n == 0x60

/-- Unicode's `Final_Sigma` condition at a position: `before` holds the
characters that precede it, nearest first, and `after` those that follow.
A cased letter precedes, and none follows, case-ignorable characters being
skipped. -/
def isFinalSigma (before after : List Char) : Bool :=
  (match before.dropWhile isCaseIgnorable with
    | c :: _ => isCasedLetter c
    | [] => false) &&
  !(match after.dropWhile isCaseIgnorable with
    | c :: _ => isCasedLetter c
    | [] => false)

/-- Lower-casing of one character outside the final-sigma position: Greek
capitals U+0391..U+03A9 move to U+03B1..U+03C9, ASCII capitals to their
small letters. -/
def lowerChar (c : Char) : Char :=
  let n := c.toNat
  if 0x391 ≤ n ∧ n ≤ 0x3A9 ∧ n ≠ 0x3A2 then Char.ofNat (n + 0x20) else c.toLower

/-- Left-to-right pass of `greekToLowerCase`. -/
def lowerFrom : List Char → List Char → List Char
  | _, [] => []
  | before, c :: rest =>
    (if c = 'Σ' ∧ isFinalSigma before rest = true then 'ς' else lowerChar c) ::
      lowerFrom (c :: before) rest

/-- The built-in `toLowerCase` on strings made of ASCII characters and the
Greek letters U+0391..U+03C9: capitals are mapped to small letters, and the
capital sigma U+03A3 to the final sigma U+03C2 where `Final_Sigma` holds, as
the built-in does ("ΟΔΟΣ" becomes "οδος", a lone "Σ" becomes "σ"). -/
def greekToLowerCase (s : String) : String :=
  String.mk (lowerFrom [] s.data)

/-! ## State -/

/-- The module variables `page` and `matches` (field `matches_`, since
`matches` is a reserved word) and the parts of the document written by the
search and pagination code: the children of `[data-list-items]`, the
`disabled` flag of `[data-list-button]`, the count shown in its label
(`Show more (n)`), whether `[data-list-message]` carries the class
`list__message_show`, and whether `[data-search-overlay]` is open. -/
structure State where
  page : Nat
  matches_ : List Book
  listItems : List Preview
  listButtonDisabled : Bool
  listButtonRemaining : Int
  listMessageShow : Bool
  searchOverlayOpen : Bool
deriving DecidableEq, Repr

/-- The element created in the body of the three rendering loops for
`{ author, id, image, title }`. -/
def createPreview (env : Env) (book : Book) : Preview :=
  { dataPreview := book.id
    image := book.image
    title := book.title
    author := env.authors book.author }

/-- Modelled from the spec: the markup (`index.html`) is not part of the
sources; the rendered output described by the spec consists only of the
previews produced by the script, so before the script runs the list holds no
preview items, the "no results" message is hidden, the button is enabled
with no count, and the search overlay is closed. The module variables are
initialised by lines 13 and 19: `let page = 1; let matches = books`. -/
def initialState (env : Env) : State :=
  { page := 1
    matches_ := env.books
    listItems := []
    listButtonDisabled := false
    listButtonRemaining := 0
    listMessageShow := false
    searchOverlayOpen := false }

/-! ## Functions of `scripts.js` -/

/-- Function `displayBooksPerPage` (lines 25-51): appends a preview for each book of
`matches.slice(0, BOOKS_PER_PAGE)` to `[data-list-items]`. -/
def displayBooksPerPage (env : Env) (s : State) : State :=
  let starting := (slice s.matches_ 0 env.BOOKS_PER_PAGE).map (createPreview env)
  { s with listItems := s.listItems ++ starting }

/-- Function `updateShowMoreButton` (lines 138-152). The label is written twice:
first `innerText` with `books.length - BOOKS_PER_PAGE`, then `innerHTML`
with the clipped `remainingBooks`. -/
def updateShowMoreButton (env : Env) (s : State) : State :=
  let remainingBooks : Int :=
    (s.matches_.length : Int) - (s.page : Int) * (env.BOOKS_PER_PAGE : Int)
  let s1 := { s with listButtonRemaining := (env.books.length : Int) - (env.BOOKS_PER_PAGE : Int) }
  let s2 := { s1 with listButtonDisabled := decide (remainingBooks > 0) }
  { s2 with listButtonRemaining := if remainingBooks > 0 then remainingBooks else 0 }

/-- The loop of lines 283-290 over `book.genres`, started with
`genreMatch = (filters.genre === "any")`. -/
def genreLoop (genre : String) (genreMatch : Bool) : List String → Bool
  | [] => genreMatch
  | singleGenre :: rest =>
    if genreMatch then genreMatch
    else if singleGenre = genre then genreLoop genre true rest
    else genreLoop genre genreMatch rest

/-- The callback given to `books.filter` (lines 282-300). -/
def filterCallback (env : Env) (filters : Filters) (book : Book) : Bool :=
  let genreMatch := genreLoop filters.genre (decide (filters.genre = "any")) book.genres
  (decide (trim filters.title = "") ||
      includes (env.toLowerCase book.title) (env.toLowerCase filters.title)) &&
    (decide (filters.author = "any") || decide (book.author = filters.author)) &&
    genreMatch

/-- Function `handleSearchFormSubmit` (lines 273-367), statement by statement:
the filter, the assignments to `page` and `matches`, the class of the
message element, `innerHTML = ""` followed by `appendChild(newItems)`, the
button's `disabled` flag and label, and the closing of the search overlay. -/
def handleSearchFormSubmit (env : Env) (s : State) (filters : Filters) : State :=
  let result := env.books.filter (filterCallback env filters)
  let s := { s with page := 1 }
  let s := { s with matches_ := result }
  let s :=
    if result.length < 1 then { s with listMessageShow := true }
    else { s with listMessageShow := false }
  let s := { s with listItems := [] }
  let newItems := (slice result 0 env.BOOKS_PER_PAGE).map (createPreview env)
  let s := { s with listItems := s.listItems ++ newItems }
  let s := { s with
    listButtonDisabled :=
      decide ((s.matches_.length : Int) - (s.page : Int) * (env.BOOKS_PER_PAGE : Int) < 1) }
  let s := { s with
    listButtonRemaining :=
      if (s.matches_.length : Int) - (s.page : Int) * (env.BOOKS_PER_PAGE : Int) > 0
      then (s.matches_.length : Int) - (s.page : Int) * (env.BOOKS_PER_PAGE : Int)
      else 0 }
  { s with searchOverlayOpen := false }

/-- Function `handleShowMoreButtonClick` (lines 379-415): appends the previews
of `matches.slice(startIndex, endIndex)`, increments `page`, and sets the
button's `disabled` flag from `remainingBooks`; the label is not written. -/
def handleShowMoreButtonClick (env : Env) (s : State) : State :=
  let startIndex := s.page * env.BOOKS_PER_PAGE
  let endIndex := (s.page + 1) * env.BOOKS_PER_PAGE
  let remainingBooks : Int := (s.matches_.length : Int) - (endIndex : Int)
  let fragment := (slice s.matches_ startIndex endIndex).map (createPreview env)
  { s with
    listItems := s.listItems ++ fragment
    page := s.page + 1
    listButtonDisabled := decide (remainingBooks ≤ 0) }

/-- The top-level statements of `scripts.js` that touch the state, in source
order: `displayBooksPerPage()` (line 53), `updateShowMoreButton()`
(line 225) and `handleShowMoreButtonClick()` (line 422). -/
def moduleLoad (env : Env) : State :=
  handleShowMoreButtonClick env
    (updateShowMoreButton env (displayBooksPerPage env (initialState env)))

/-- The events handled after load: a submit of the search form and a click
on the show-more button. -/
inductive Event where
  | searchSubmit (filters : Filters)
  | showMoreClick
deriving DecidableEq, Repr

/-- Dispatch of one event to its listener. -/
def handle (env : Env) (s : State) : Event → State
  | .searchSubmit filters => handleSearchFormSubmit env s filters
  | .showMoreClick => handleShowMoreButtonClick env s

/-- The state after module load followed by a sequence of events. -/
def run (env : Env) (events : List Event) : State :=
  events.foldl (handle env) (moduleLoad env)

/-- Delivery of an event by the browser: a submit of the search form always
reaches its listener, while a click on `[data-list-button]` reaches
`handleShowMoreButtonClick` only when the button is not disabled (a disabled
button receives no click event). -/
def deliver (env : Env) (s : State) : Event → State
  | .searchSubmit filters => handleSearchFormSubmit env s filters
  | .showMoreClick => if s.listButtonDisabled then s else handleShowMoreButtonClick env s

/-- The state after module load followed by a sequence of events as the
browser delivers them. -/
def browserRun (env : Env) (events : List Event) : State :=
  events.foldl (deliver env) (moduleLoad env)

/-! ## Concrete catalogues -/

/-- A book with the given id and title and no other data. -/
def mkBook (id title : String) : Book :=
  { id := id, title := title, author := "author", image := "", description := "",
    published := "", genres := [] }

/-- The catalogue of the title scenario: "Dune Messiah" and
"The Great Gatsby", page size 12. -/
def duneEnv : Env :=
  { books := [mkBook "1" "Dune Messiah", mkBook "2" "The Great Gatsby"]
    authors := fun _ => none
    BOOKS_PER_PAGE := 12
    toLowerCase := asciiToLowerCase }

/-- A catalogue holding the single book "Dune", page size 12. -/
def singleEnv : Env :=
  { books := [mkBook "1" "Dune"]
    authors := fun _ => none
    BOOKS_PER_PAGE := 12
    toLowerCase := asciiToLowerCase }

/-- A catalogue holding the single book "ΟΔΟΣ" (Greek capitals), page
size 12, lower-cased with the final-sigma rule. -/
def odosEnv : Env :=
  { books := [mkBook "1" "ΟΔΟΣ"]
    authors := fun _ => none
    BOOKS_PER_PAGE := 12
    toLowerCase := greekToLowerCase }

/-- A catalogue of 30 books with page size 12. -/
def thirtyEnv : Env :=
  { books := (List.range 30).map (fun n => mkBook (String.mk (List.replicate (n + 1) 'b')) "Book")
    authors := fun _ => none
    BOOKS_PER_PAGE := 12
    toLowerCase := asciiToLowerCase }

/-- The query that selects the whole catalogue. -/
def anyFilters : Filters := { title := "", author := "any", genre := "any" }

/-! ## Lemmas on the built-in operations -/

theorem slice_zero {α : Type} (xs : List α) (n : Nat) : slice xs 0 n = xs.take n := by
  simp [slice]

theorem slice_page {α : Type} (xs : List α) (p n : Nat) :
    slice xs (p * n) ((p + 1) * n) = (xs.drop (p * n)).take n := by
  have h : (p + 1) * n - p * n = n := by
    rw [Nat.add_mul, Nat.one_mul, Nat.add_sub_cancel_left]
  simp [slice, h]

theorem take_append_page {α : Type} (xs : List α) (p n : Nat) :
    xs.take (p * n) ++ (xs.drop (p * n)).take n = xs.take ((p + 1) * n) := by
  rw [Nat.add_mul, Nat.one_mul, List.take_add]

theorem includesChars_iff (search hay : List Char) :
    includesChars search hay = true ↔ search <:+: hay := by
  induction hay with
  | nil =>
    simp [includesChars, List.isPrefixOf_iff_prefix]
  | cons c hay ih =>
    simp only [includesChars, Bool.or_eq_true, ih, List.isPrefixOf_iff_prefix,
      List.infix_cons_iff]

theorem includes_iff (s search : String) :
    includes s search = true ↔ search.data <:+: s.data := by
  simp [includes, includesChars_iff]

theorem genreLoop_true (genre : String) (gs : List String) :
    genreLoop genre true gs = true := by
  cases gs <;> simp [genreLoop]

theorem genreLoop_false (genre : String) (gs : List String) :
    genreLoop genre false gs = decide (genre ∈ gs) := by
  induction gs with
  | nil => simp [genreLoop]
  | cons g gs ih =>
    by_cases h : g = genre
    · simp [genreLoop, h, genreLoop_true]
    · have h2 : ¬ genre = g := fun e => h e.symm
      simp [genreLoop, h, h2, ih]

theorem genreLoop_eq (genre : String) (start : Bool) (gs : List String) :
    genreLoop genre start gs = (start || decide (genre ∈ gs)) := by
  cases start
  · simp [genreLoop_false]
  · simp [genreLoop_true]

theorem filterCallback_iff (env : Env) (filters : Filters) (book : Book) :
    filterCallback env filters book = true ↔
      (trim filters.title = "" ∨
          (env.toLowerCase filters.title).data <:+: (env.toLowerCase book.title).data) ∧
        (filters.author = "any" ∨ book.author = filters.author) ∧
        (filters.genre = "any" ∨ filters.genre ∈ book.genres) := by
  simp [filterCallback, genreLoop_eq, includes_iff, and_assoc]

/-! ## Field-by-field description of the handlers -/

theorem search_page (env : Env) (s : State) (f : Filters) :
    (handleSearchFormSubmit env s f).page = 1 := by
  unfold handleSearchFormSubmit
  dsimp only
  split <;> rfl

theorem search_matches (env : Env) (s : State) (f : Filters) :
    (handleSearchFormSubmit env s f).matches_ = env.books.filter (filterCallback env f) := by
  unfold handleSearchFormSubmit
  dsimp only
  split <;> rfl

theorem search_listItems (env : Env) (s : State) (f : Filters) :
    (handleSearchFormSubmit env s f).listItems =
      ((env.books.filter (filterCallback env f)).take env.BOOKS_PER_PAGE).map
        (createPreview env) := by
  unfold handleSearchFormSubmit
  simp [slice_zero]

theorem search_disabled (env : Env) (s : State) (f : Filters) :
    (handleSearchFormSubmit env s f).listButtonDisabled =
      decide (((env.books.filter (filterCallback env f)).length : Int) -
        (1 : Int) * (env.BOOKS_PER_PAGE : Int) < 1) := by
  unfold handleSearchFormSubmit
  dsimp only
  split <;> simp

theorem search_independent (env : Env) (s t : State) (f : Filters) :
    handleSearchFormSubmit env s f = handleSearchFormSubmit env t f := by
  unfold handleSearchFormSubmit
  dsimp only
  split <;> rfl

theorem click_page (env : Env) (s : State) :
    (handleShowMoreButtonClick env s).page = s.page + 1 := rfl

theorem click_matches (env : Env) (s : State) :
    (handleShowMoreButtonClick env s).matches_ = s.matches_ := rfl

theorem click_listItems (env : Env) (s : State) :
    (handleShowMoreButtonClick env s).listItems =
      s.listItems ++
        ((s.matches_.drop (s.page * env.BOOKS_PER_PAGE)).take env.BOOKS_PER_PAGE).map
          (createPreview env) := by
  simp [handleShowMoreButtonClick, slice_page]

theorem click_disabled (env : Env) (s : State) :
    (handleShowMoreButtonClick env s).listButtonDisabled =
      decide ((s.matches_.length : Int) - (((s.page + 1) * env.BOOKS_PER_PAGE : Nat) : Int) ≤ 0) :=
  rfl

theorem click_remaining (env : Env) (s : State) :
    (handleShowMoreButtonClick env s).listButtonRemaining = s.listButtonRemaining := rfl

/-! ## The pagination invariant -/

/-- The rendered items are the previews of the first `page * BOOKS_PER_PAGE`
matches, and the button is enabled exactly when matches remain beyond
them. -/
def Consistent (env : Env) (s : State) : Prop :=
  s.listItems = (s.matches_.take (s.page * env.BOOKS_PER_PAGE)).map (createPreview env) ∧
    (s.listButtonDisabled = false ↔
      (s.matches_.length : Int) - (s.page : Int) * (env.BOOKS_PER_PAGE : Int) > 0)

theorem consistent_click (env : Env) (s : State)
    (h : s.listItems = (s.matches_.take (s.page * env.BOOKS_PER_PAGE)).map (createPreview env)) :
    Consistent env (handleShowMoreButtonClick env s) := by
  constructor
  · rw [click_listItems, click_page, click_matches, h, ← List.map_append, take_append_page]
  · rw [click_disabled, click_page, click_matches]
    simp only [decide_eq_false_iff_not, not_le, Nat.cast_mul, Nat.cast_add, Nat.cast_one]

theorem consistent_search (env : Env) (s : State) (f : Filters) :
    Consistent env (handleSearchFormSubmit env s f) := by
  constructor
  · rw [search_listItems, search_page, search_matches, Nat.one_mul]
  · rw [search_disabled, search_page, search_matches]
    simp only [decide_eq_false_iff_not, not_lt, Nat.cast_one]
    constructor <;> intro h' <;> omega

theorem moduleLoad_eq (env : Env) :
    (moduleLoad env).page = 2 ∧ (moduleLoad env).matches_ = env.books ∧
      (moduleLoad env).listItems =
        (env.books.take (2 * env.BOOKS_PER_PAGE)).map (createPreview env) := by
  refine ⟨rfl, rfl, ?_⟩
  unfold moduleLoad
  rw [click_listItems]
  have h := take_append_page env.books 1 env.BOOKS_PER_PAGE
  simp only [Nat.one_mul] at h
  simp only [updateShowMoreButton, displayBooksPerPage, initialState, slice_zero,
    List.nil_append, Nat.one_mul, ← List.map_append, h]

theorem consistent_moduleLoad (env : Env) : Consistent env (moduleLoad env) := by
  unfold moduleLoad
  apply consistent_click
  simp [updateShowMoreButton, displayBooksPerPage, initialState, slice_zero]

theorem consistent_handle (env : Env) (s : State) (e : Event) (h : Consistent env s) :
    Consistent env (handle env s e) := by
  cases e with
  | searchSubmit f => exact consistent_search env s f
  | showMoreClick => exact consistent_click env s h.1

theorem consistent_foldl (env : Env) (events : List Event) :
    ∀ s : State, Consistent env s → Consistent env (events.foldl (handle env) s) := by
  induction events with
  | nil => intro s h; exact h
  | cons e es ih => intro s h; exact ih _ (consistent_handle env s e h)

theorem consistent_run (env : Env) (events : List Event) : Consistent env (run env events) :=
  consistent_foldl env events _ (consistent_moduleLoad env)

theorem consistent_deliver (env : Env) (s : State) (e : Event) (h : Consistent env s) :
    Consistent env (deliver env s e) := by
  cases e with
  | searchSubmit f => exact consistent_search env s f
  | showMoreClick =>
    show Consistent env (if s.listButtonDisabled then s else handleShowMoreButtonClick env s)
    by_cases hd : s.listButtonDisabled = true
    · rw [if_pos hd]; exact h
    · rw [if_neg hd]; exact consistent_click env s h.1

theorem consistent_deliver_foldl (env : Env) (events : List Event) :
    ∀ s : State, Consistent env s → Consistent env (events.foldl (deliver env) s) := by
  induction events with
  | nil => intro s h; exact h
  | cons e es ih => intro s h; exact ih _ (consistent_deliver env s e h)

theorem consistent_browserRun (env : Env) (events : List Event) :
    Consistent env (browserRun env events) :=
  consistent_deliver_foldl env events _ (consistent_moduleLoad env)

/-! ## The search filter -/

/-- C1: for every catalogue, prior state and query, the match set computed by
`handleSearchFormSubmit` is the catalogue filtered, in catalogue order, by the
conjunction of the three predicates: the trimmed query title is empty or the
lower-cased book title contains the lower-cased query title; the author is
"any" or equal to the book's author; the genre is "any" or a member of the
book's genres. It is a sublist of the catalogue and holds exactly the books
satisfying the three predicates. -/
theorem search_matches_exactly (env : Env) (s : State) (f : Filters) :
    (handleSearchFormSubmit env s f).matches_ =
        env.books.filter (fun b => decide
          ((trim f.title = "" ∨
              (env.toLowerCase f.title).data <:+: (env.toLowerCase b.title).data) ∧
            (f.author = "any" ∨ b.author = f.author) ∧
            (f.genre = "any" ∨ f.genre ∈ b.genres))) ∧
      List.Sublist (handleSearchFormSubmit env s f).matches_ env.books ∧
      ∀ b, b ∈ (handleSearchFormSubmit env s f).matches_ ↔
        b ∈ env.books ∧
          (trim f.title = "" ∨
              (env.toLowerCase f.title).data <:+: (env.toLowerCase b.title).data) ∧
            (f.author = "any" ∨ b.author = f.author) ∧
            (f.genre = "any" ∨ f.genre ∈ b.genres) := by
  rw [search_matches]
  refine ⟨?_, List.filter_sublist _, ?_⟩
  · apply List.filter_congr
    intro b _
    rw [Bool.eq_iff_iff, filterCallback_iff, decide_eq_true_iff]
  · intro b
    rw [List.mem_filter, filterCallback_iff]

/-- C2, as stated, fails in two ways. A title made of white space only:
the query title " " is not empty, yet the book "Dune" is returned although
its lower-cased title does not contain a space. A title that the book's
title contains verbatim: the query "Σ" occurs in "ΟΔΟΣ", yet the book is
not returned, because the title is lower-cased as a whole to "οδος" (final
sigma) and the query to "σ". -/
theorem title_search_counterexample :
    ((" " : String) ≠ "" ∧
      ¬ (∀ b, b ∈ (handleSearchFormSubmit singleEnv (moduleLoad singleEnv)
              { title := " ", author := "any", genre := "any" }).matches_ ↔
            b ∈ singleEnv.books ∧
              (singleEnv.toLowerCase " ").data <:+: (singleEnv.toLowerCase b.title).data)) ∧
    (("Σ" : String) ≠ "" ∧ trim "Σ" ≠ "" ∧
      ("Σ" : String).data <:+: (mkBook "1" "ΟΔΟΣ").title.data ∧
      mkBook "1" "ΟΔΟΣ" ∈ odosEnv.books ∧
      mkBook "1" "ΟΔΟΣ" ∉ (handleSearchFormSubmit odosEnv (moduleLoad odosEnv)
          { title := "Σ", author := "any", genre := "any" }).matches_) := by
  refine ⟨⟨by decide, fun h => ?_⟩, by decide⟩
  have h1 := (h (mkBook "1" "Dune")).1 (by decide)
  exact absurd h1.2 (by decide)

/-- C2 (amended): for every catalogue and every query title `t`, with author
"any" and genre "any": if `t.trim()` is empty the match set is the whole
catalogue; if `t.trim()` is not empty the match set is the catalogue
filtered, in order, by "`book.title.toLowerCase()` contains
`t.toLowerCase()`", so a book is returned iff it is in the catalogue and its
lower-cased title contains the lower-cased query title. -/
theorem title_search_iff (env : Env) (s : State) (t : String) :
    (trim t = "" →
      (handleSearchFormSubmit env s { title := t, author := "any", genre := "any" }).matches_ =
        env.books) ∧
    (trim t ≠ "" →
      (handleSearchFormSubmit env s { title := t, author := "any", genre := "any" }).matches_ =
          env.books.filter (fun b => decide
            ((env.toLowerCase t).data <:+: (env.toLowerCase b.title).data)) ∧
        ∀ b, b ∈ (handleSearchFormSubmit env s
              { title := t, author := "any", genre := "any" }).matches_ ↔
            b ∈ env.books ∧
              (env.toLowerCase t).data <:+: (env.toLowerCase b.title).data) := by
  rw [search_matches]
  refine ⟨fun ht => ?_, fun ht => ⟨?_, ?_⟩⟩
  · rw [List.filter_eq_self]
    intro b _
    rw [filterCallback_iff]
    simp [ht]
  · apply List.filter_congr
    intro b _
    rw [Bool.eq_iff_iff, filterCallback_iff, decide_eq_true_iff]
    simp [ht]
  · intro b
    rw [List.mem_filter, filterCallback_iff]
    simp [ht]

/-- Witness for C2 (amended): the query "dune" over "Dune Messiah" and
"The Great Gatsby" returns only "Dune Messiah", and the query " " returns
both books. -/
theorem title_search_iff_witness :
    (trim "dune" ≠ "" ∧
      (handleSearchFormSubmit duneEnv (moduleLoad duneEnv)
          { title := "dune", author := "any", genre := "any" }).matches_ =
        [mkBook "1" "Dune Messiah"]) ∧
    (trim " " = "" ∧
      (handleSearchFormSubmit duneEnv (moduleLoad duneEnv)
          { title := " ", author := "any", genre := "any" }).matches_ =
        [mkBook "1" "Dune Messiah", mkBook "2" "The Great Gatsby"]) :=
  ⟨⟨by decide,
      ((title_search_iff duneEnv (moduleLoad duneEnv) "dune").2 (by decide)).1.trans
        (by decide)⟩,
    ⟨by decide,
      ((title_search_iff duneEnv (moduleLoad duneEnv) " ").1 (by decide)).trans (by decide)⟩⟩

/-! ## Pagination -/

/-- C3: after module load and after any sequence of search submits and
show-more clicks, the show-more button is enabled iff
`matches.length - page * BOOKS_PER_PAGE > 0`. -/
theorem showMore_enabled_iff (env : Env) (events : List Event) :
    (run env events).listButtonDisabled = false ↔
      ((run env events).matches_.length : Int) -
        ((run env events).page : Int) * (env.BOOKS_PER_PAGE : Int) > 0 :=
  (consistent_run env events).2

/-- C4: after module load and after any sequence of search submits and
show-more invocations, the number of rendered preview items is at most
`page * BOOKS_PER_PAGE` and at most `matches.length`. -/
theorem rendered_count_bounded (env : Env) (events : List Event) :
    (run env events).listItems.length ≤ (run env events).page * env.BOOKS_PER_PAGE ∧
      (run env events).listItems.length ≤ (run env events).matches_.length := by
  rw [(consistent_run env events).1, List.length_map, List.length_take]
  exact ⟨Nat.min_le_left _ _, Nat.min_le_right _ _⟩

/-- C5: one invocation of `handleShowMoreButtonClick` appends to the rendered
items the previews of the matches with index in
`[page * BOOKS_PER_PAGE, (page + 1) * BOOKS_PER_PAGE)` (clipped at the end of
the match set) in match-set order, increases `page` by one and leaves the
match set unchanged; if the rendered items were the first
`page * BOOKS_PER_PAGE` matches before, they are the first
`(page + 1) * BOOKS_PER_PAGE` matches afterwards. -/
theorem showMore_appends_next_page (env : Env) (s : State) :
    (handleShowMoreButtonClick env s).listItems =
        s.listItems ++
          ((s.matches_.drop (s.page * env.BOOKS_PER_PAGE)).take env.BOOKS_PER_PAGE).map
            (createPreview env) ∧
      (∀ i, ((s.matches_.drop (s.page * env.BOOKS_PER_PAGE)).take env.BOOKS_PER_PAGE)[i]? =
        if i < env.BOOKS_PER_PAGE then s.matches_[s.page * env.BOOKS_PER_PAGE + i]? else none) ∧
      (handleShowMoreButtonClick env s).page = s.page + 1 ∧
      (handleShowMoreButtonClick env s).matches_ = s.matches_ ∧
      (s.listItems = (s.matches_.take (s.page * env.BOOKS_PER_PAGE)).map (createPreview env) →
        (handleShowMoreButtonClick env s).listItems =
          (s.matches_.take ((s.page + 1) * env.BOOKS_PER_PAGE)).map (createPreview env)) := by
  refine ⟨click_listItems env s, ?_, rfl, rfl, fun h => ?_⟩
  · intro i
    simp [List.getElem?_take, List.getElem?_drop]
  · have hc := (consistent_click env s h).1
    rwa [click_page, click_matches] at hc

/-- Witness for C5: in the state reached by a search over the 30-book
catalogue the 12 rendered items are the first page, and after one click
the rendered items are the first 24 matches. -/
theorem showMore_appends_next_page_witness :
    (handleSearchFormSubmit thirtyEnv (moduleLoad thirtyEnv) anyFilters).listItems =
        ((handleSearchFormSubmit thirtyEnv (moduleLoad thirtyEnv) anyFilters).matches_.take
          ((handleSearchFormSubmit thirtyEnv (moduleLoad thirtyEnv) anyFilters).page *
            thirtyEnv.BOOKS_PER_PAGE)).map (createPreview thirtyEnv) ∧
      (handleShowMoreButtonClick thirtyEnv
          (handleSearchFormSubmit thirtyEnv (moduleLoad thirtyEnv) anyFilters)).listItems =
        ((handleSearchFormSubmit thirtyEnv (moduleLoad thirtyEnv) anyFilters).matches_.take
          (((handleSearchFormSubmit thirtyEnv (moduleLoad thirtyEnv) anyFilters).page + 1) *
            thirtyEnv.BOOKS_PER_PAGE)).map (createPreview thirtyEnv) :=
  ⟨by decide,
    (showMore_appends_next_page thirtyEnv
      (handleSearchFormSubmit thirtyEnv (moduleLoad thirtyEnv) anyFilters)).2.2.2.2 (by decide)⟩

/-- C6 (the code at the failing input): with 30 books and page size 12 the
top-level statements leave `page = 2` and 24 rendered items, the first 24
books of the catalogue, because `handleShowMoreButtonClick()` is called at
load after `displayBooksPerPage()`; the claim expects `page = 1` and 12
items. -/
theorem moduleLoad_thirty_renders_two_pages :
    (moduleLoad thirtyEnv).page = 2 ∧
      (moduleLoad thirtyEnv).listItems.length = 24 ∧
      (moduleLoad thirtyEnv).listItems =
        (thirtyEnv.books.take 24).map (createPreview thirtyEnv) ∧
      (moduleLoad thirtyEnv).listItems ≠
        (thirtyEnv.books.take thirtyEnv.BOOKS_PER_PAGE).map (createPreview thirtyEnv) := by
  decide

/-- C7: for every prior state and every query the state after
`handleSearchFormSubmit` does not depend on the prior state: `page = 1`, the
match set is the filter of the full catalogue, the rendered items are the
previews of the first `BOOKS_PER_PAGE` matches and nothing else, and
submitting the same query a second time gives the same state as submitting
it once. -/
theorem search_resets_state (env : Env) (s t : State) (f : Filters) :
    handleSearchFormSubmit env s f = handleSearchFormSubmit env t f ∧
      (handleSearchFormSubmit env s f).page = 1 ∧
      (handleSearchFormSubmit env s f).matches_ = env.books.filter (filterCallback env f) ∧
      (handleSearchFormSubmit env s f).listItems =
        ((handleSearchFormSubmit env s f).matches_.take env.BOOKS_PER_PAGE).map
          (createPreview env) ∧
      handleSearchFormSubmit env (handleSearchFormSubmit env s f) f =
        handleSearchFormSubmit env s f := by
  refine ⟨search_independent env s t f, search_page env s f, search_matches env s f, ?_,
    search_independent env _ s f⟩
  rw [search_listItems, search_matches]

/-- C8: in every state the page can be in (module load followed by any
sequence of search submits and show-more clicks as the browser delivers
them) whose remaining count `max(0, matches.length - page * BOOKS_PER_PAGE)`
is 0, a further show-more click is a no-op: the state, and so `page`, the
match set and the rendered items, are unchanged, because the button is
disabled there. -/
theorem showMore_request_noop (env : Env) (events : List Event)
    (h : max 0 (((browserRun env events).matches_.length : Int) -
      ((browserRun env events).page : Int) * (env.BOOKS_PER_PAGE : Int)) = 0) :
    (browserRun env events).listButtonDisabled = true ∧
      browserRun env (events ++ [Event.showMoreClick]) = browserRun env events ∧
      (deliver env (browserRun env events) Event.showMoreClick).page =
        (browserRun env events).page ∧
      (deliver env (browserRun env events) Event.showMoreClick).matches_ =
        (browserRun env events).matches_ ∧
      (deliver env (browserRun env events) Event.showMoreClick).listItems =
        (browserRun env events).listItems := by
  have hle : ((browserRun env events).matches_.length : Int) -
      ((browserRun env events).page : Int) * (env.BOOKS_PER_PAGE : Int) ≤ 0 := by
    rw [← h]; exact le_max_right _ _
  have hd : (browserRun env events).listButtonDisabled = true := by
    cases hb : (browserRun env events).listButtonDisabled with
    | true => rfl
    | false => exact absurd ((consistent_browserRun env events).2.1 hb) (not_lt.2 hle)
  have hstep : deliver env (browserRun env events) Event.showMoreClick =
      browserRun env events := by
    simp [deliver, hd]
  refine ⟨hd, ?_, ?_, ?_, ?_⟩
  · simp only [browserRun, List.foldl_append, List.foldl_cons, List.foldl_nil]
    exact hstep
  · rw [hstep]
  · rw [hstep]
  · rw [hstep]

/-- Witness for C8: after a search with zero matches the remaining count is
0, the button is disabled, and a click leaves `page = 1` and no rendered
items. -/
theorem showMore_request_noop_witness :
    max 0 (((browserRun duneEnv
            [Event.searchSubmit { title := "zzz", author := "any", genre := "any" }]).matches_.length
            : Int) -
          ((browserRun duneEnv
            [Event.searchSubmit { title := "zzz", author := "any", genre := "any" }]).page : Int) *
            (duneEnv.BOOKS_PER_PAGE : Int)) = 0 ∧
      (deliver duneEnv (browserRun duneEnv
          [Event.searchSubmit { title := "zzz", author := "any", genre := "any" }])
        Event.showMoreClick).page = 1 ∧
      (deliver duneEnv (browserRun duneEnv
          [Event.searchSubmit { title := "zzz", author := "any", genre := "any" }])
        Event.showMoreClick).listItems = [] := by
  have h := showMore_request_noop duneEnv
    [Event.searchSubmit { title := "zzz", author := "any", genre := "any" }] (by decide)
  exact ⟨by decide, h.2.2.1.trans (by decide), h.2.2.2.2.trans (by decide)⟩

/-- C9 (the code at the failing input): with 30 matches and page size 12,
after a search and one show-more click the label still shows 18, the count
written by the search, while `max(0, matches.length - page * BOOKS_PER_PAGE)`
for the updated page is 6: `handleShowMoreButtonClick` never writes the
label. -/
theorem showMore_label_stale :
    (run thirtyEnv [.searchSubmit anyFilters, .showMoreClick]).listButtonRemaining = 18 ∧
      max 0 (((run thirtyEnv [.searchSubmit anyFilters, .showMoreClick]).matches_.length : Int) -
        ((run thirtyEnv [.searchSubmit anyFilters, .showMoreClick]).page : Int) *
          (thirtyEnv.BOOKS_PER_PAGE : Int)) = 6 := by
  decide

/-- C10 (the code at the failing input): with 30 matches, `page = 1` and page
size 12, `updateShowMoreButton` displays the remaining count 18 and sets the
button disabled, although the count is positive. -/
theorem updateShowMoreButton_disables_when_remaining :
    (updateShowMoreButton thirtyEnv (initialState thirtyEnv)).listButtonRemaining = 18 ∧
      (updateShowMoreButton thirtyEnv (initialState thirtyEnv)).listButtonDisabled = true ∧
      (initialState thirtyEnv).page = 1 ∧ (initialState thirtyEnv).matches_.length = 30 := by
  decide

end BookConnect
